import Mathlib

/-!
Shallow embedding of the NeonSpotOBS core (src/main.py): the playback
snapshot data model, the presentation derivation `format_track_display`,
the HTTP-route payload builders, the token-manager and playback-poller
loop bodies, the CSS settings-file accessors and the OAuth code handoff
queue.  Python dict fields that may be absent are modelled with `Option`;
Python exceptions are modelled with `Except String`; wall-clock timestamps
and millisecond quantities are modelled with `Rat`.
-/

namespace NeonSpot

/-- Album object of a track item: `item.get('album', {})` with keys
`name` and `images`; each image is reduced to its url string, since the
source only reads `images[0]['url']`. -/
structure AlbumObj where
  name : Option String
  images : List String
deriving Repr, DecidableEq

/-- Track item of a playback snapshot: the `item` dict with keys `name`,
`artists` (reduced to the artist name strings the source reads),
`album` and `duration_ms`.  `none` models an absent key. -/
structure TrackItem where
  name : Option String
  artists : List String
  album : Option AlbumObj
  duration_ms : Option Rat
deriving Repr, DecidableEq

/-- Playback snapshot: the JSON body of a 2xx currently-playing response,
restricted to the keys the source reads: `item`, `progress_ms`,
`is_playing`. -/
structure Snapshot where
  item : Option TrackItem
  progress_ms : Option Rat
  is_playing : Option Bool
deriving Repr, DecidableEq

/-- Python `int()` applied to a rational: truncation toward zero. -/
def pyTrunc (q : Rat) : Int :=
  if 0 ≤ q then ⌊q⌋ else ⌈q⌉

/-- Python `f"{n:02d}"`: decimal rendering zero-padded to width 2. -/
def pad2 (n : Int) : String :=
  let s := toString n
  if s.length < 2 then "0" ++ s else s

/-- Inner helper `format_time` of `format_track_display`
(src/main.py:273): `seconds = int(ms / 1000)`, then minutes by Python
floor division `//` and seconds by Python modulo `%` (both flooring),
rendered as `M:SS`. -/
def format_time (ms : Rat) : String :=
  let seconds : Int := pyTrunc (ms / 1000)
  let mins : Int := Int.fdiv seconds 60
  let secs : Int := Int.fmod seconds 60
  toString mins ++ ":" ++ pad2 secs

/-- Percentage derivation of `format_track_display` (src/main.py:270-272):
`progress = data.get('progress_ms', 0)`, `duration = item.get('duration_ms', 1)`,
`pct = min(100, (progress / duration) * 100)`.  The default divisor 1 is
used only when the `duration_ms` key is absent; a present value of 0
reaches the division and raises `ZeroDivisionError`. -/
def track_pct (data : Snapshot) (item : TrackItem) : Except String Rat :=
  let progress := data.progress_ms.getD 0
  let duration := item.duration_ms.getD 1
  if duration = 0 then Except.error "ZeroDivisionError"
  else Except.ok (min 100 ((progress / duration) * 100))

/-- Embedding of `format_track_display` (src/main.py:261-293).  Returns
`Except.ok ""` when the snapshot is `None` or its `item` is absent or
null; otherwise builds the HTML card from title, artists, album, artwork
url, percentage and formatted times.  The division in the percentage
derivation is the only raising operation in scope of the model, surfaced
as `Except.error`. -/
def format_track_display (data : Option Snapshot) : Except String String :=
  match data with
  | none => Except.ok ""
  | some d =>
    match d.item with
    | none => Except.ok ""
    | some item =>
      let title := item.name.getD ""
      let artists := String.intercalate ", " item.artists
      let albumObj := item.album.getD ⟨none, []⟩
      let album := albumObj.name.getD ""
      let img_url := albumObj.images.headD ""
      let progress := d.progress_ms.getD 0
      let duration := item.duration_ms.getD 1
      match track_pct d item with
      | Except.error e => Except.error e
      | Except.ok pct =>
        let progress_time := format_time progress
        let duration_time := format_time duration
        Except.ok ("\n    <div class=\"meta\">\n        <img class=\"art\" src=\""
          ++ img_url ++ "\" alt=\"album art\"/>\n        <div class=\"text\">\n            <div class=\"title\">"
          ++ title ++ "</div>\n            <div class=\"artist\">"
          ++ artists ++ "</div>\n            <div class=\"album\">Album: "
          ++ album ++ "</div>\n            <div class=\"progress-container\">\n                <div class=\"progress\"><div class=\"bar\" style=\"width:"
          ++ toString pct ++ "%\"></div></div>\n                <div class=\"time-display\">"
          ++ progress_time ++ " / " ++ duration_time
          ++ "</div>\n            </div>\n        </div>\n    </div>\n    ")

/-- Payload of the `/track-data` route: the dict literal at
src/main.py:542-546 with keys `html`, `has_track`, `is_playing`. -/
structure TrackDataPayload where
  html : String
  has_track : Bool
  is_playing : Bool
deriving Repr, DecidableEq

/-- Embedding of the `/track-data` route body (src/main.py:534-546).
`has_track = data is not None and data.get('item') is not None` raises
nothing (short-circuit).  The returned dict evaluates
`format_track_display(data)` first, then `data.get("is_playing", False)`:
the latter raises `AttributeError` when `data` is `None`, because `None`
has no `get` method.  The local variable computed at lines 539-541 is not
used in the returned dict. -/
def track_data (data : Option Snapshot) : Except String TrackDataPayload :=
  let has_track := match data with
    | none => false
    | some d => d.item.isSome
  match format_track_display data with
  | Except.error e => Except.error e
  | Except.ok html =>
    match data with
    | none => Except.error "AttributeError"
    | some d =>
      Except.ok { html := html, has_track := has_track,
                  is_playing := d.is_playing.getD false }

/-- Card style derivation of the `/` route (src/main.py:491 and 505):
`has_content = bool(track_html.strip())`;
`card_style = '' if has_content else 'display: none;'`. -/
def index_card_style (track_html : String) : String :=
  if track_html.trim = "" then "display: none;" else ""

/-- Truthiness test `data and data.get('item')` used by the poll loop at
src/main.py:176: the snapshot dict is non-None and its `item` key holds a
truthy value. -/
def data_has_item (data : Option Snapshot) : Bool :=
  match data with
  | none => false
  | some d => d.item.isSome

/-- Shared state written by the playback poller: the globals
`current_track_data` and `last_track_time` (src/main.py:24,27), both
mutated under `data_lock`. -/
structure PollShared where
  current_track_data : Option Snapshot
  last_track_time : Option Rat
deriving Repr, DecidableEq

/-- One possible HTTP response to the currently-playing request made by
`get_current_playback`: status 204, status 429, a 2xx with a JSON body,
or any other status (which `raise_for_status` turns into an exception). -/
inductive PlaybackHttp where
  | s204
  | s429
  | s2xx (body : Snapshot)
  | sErr (code : Nat)
deriving Repr, DecidableEq

/-- Result of one `get_current_playback` call: the seconds slept inside
the call and the returned value or raised exception. -/
structure ClientResult where
  slept : Rat
  outcome : Except String (Option Snapshot)
deriving Repr

/-- Embedding of `get_current_playback` (src/main.py:121-131): 204
returns `None`; 429 sleeps 2 seconds and then also returns `None`; any
other non-2xx raises via `raise_for_status`; a 2xx returns the parsed
JSON body. -/
def get_current_playback (r : PlaybackHttp) : ClientResult :=
  match r with
  | PlaybackHttp.s204 => ⟨0, Except.ok none⟩
  | PlaybackHttp.s429 => ⟨2, Except.ok none⟩
  | PlaybackHttp.s2xx body => ⟨0, Except.ok (some body)⟩
  | PlaybackHttp.sErr code => ⟨0, Except.error ("HTTPError " ++ toString code)⟩

/-- Embedding of the snapshot update performed by one due iteration of
`playback_poll_loop` (src/main.py:171-180): on an exception the whole
update is skipped (`except Exception: pass`); otherwise, under the lock,
`current_track_data` is replaced by the returned value and
`last_track_time` is set to the current time exactly when
`data and data.get('item')` is truthy. -/
def poll_iteration (st : PollShared) (fetch : Except String (Option Snapshot))
    (now : Rat) : PollShared :=
  match fetch with
  | Except.error _ => st
  | Except.ok data =>
    { current_track_data := data,
      last_track_time :=
        if data_has_item data then some now else st.last_track_time }

/-- Python truthiness of an optional string: falsy when `None` or the
empty string. -/
def strTruthy : Option String → Bool
  | none => false
  | some s => !(s == "")

/-- The tokens dict (`tokens_container`): keys `access_token`,
`refresh_token`, `expires_at`; `expires_at` is stored as an ISO timestamp
string and compared as an absolute time, modelled here directly as a
rational timestamp. -/
structure Tokens where
  access_token : Option String
  refresh_token : Option String
  expires_at : Option Rat
deriving Repr, DecidableEq

/-- Body of a successful token-refresh response (src/main.py:150-154):
`access_token` is read unconditionally, `refresh_token` and `expires_in`
are optional (`expires_in` defaults to 3600). -/
structure RefreshResp where
  access_token : String
  refresh_token : Option String
  expires_in : Option Rat
deriving Repr, DecidableEq

/-- Outcome of one `refresh_access_token` call: an exception (network
error or `raise_for_status` on non-2xx) or a parsed JSON body. -/
inductive RefreshOutcome where
  | failure
  | success (resp : RefreshResp)
deriving Repr, DecidableEq

/-- The `needs_refresh` computation of `token_manager_loop`
(src/main.py:138-146): starts true; it becomes false only when both
`access_token` and `expires_at` are truthy and
`now < expires_at - 30 seconds`. -/
def needs_refresh (t : Tokens) (now : Rat) : Bool :=
  match t.access_token, t.expires_at with
  | some a, some exp => if a == "" then true else decide (exp - 30 ≤ now)
  | _, _ => true

/-- One iteration body of `token_manager_loop` (src/main.py:137-159),
given the outcome of the refresh call it would make.  Returns the updated
tokens and the number of HTTP calls performed (1 when a refresh was
attempted, 0 otherwise).  On success: `access_token` replaced,
`refresh_token` replaced only when the response carries one,
`expires_at = now + expires_in` (default 3600), then persisted.  On an
exception the error is printed and the dict is left unmodified. -/
def token_manager_step (t : Tokens) (now : Rat) (o : RefreshOutcome) :
    Tokens × Nat :=
  if needs_refresh t now then
    match o with
    | RefreshOutcome.failure => (t, 1)
    | RefreshOutcome.success resp =>
      ({ access_token := some resp.access_token,
         refresh_token :=
           match resp.refresh_token with
           | some r => some r
           | none => t.refresh_token,
         expires_at := some (now + resp.expires_in.getD 3600) }, 1)
  else (t, 0)

/-- Embedding of `token_manager_loop` (src/main.py:133-159) over a finite
trace of loop iterations, each supplying the current time and the outcome
the refresh call would have.  The guard at lines 134-136 returns
immediately when `tokens_container.get("refresh_token")` is falsy, before
any iteration runs.  Returns the final tokens and the total number of
HTTP calls performed. -/
def token_manager_loop (t0 : Tokens) (iters : List (Rat × RefreshOutcome)) :
    Tokens × Nat :=
  if strTruthy t0.refresh_token = false then (t0, 0)
  else
    iters.foldl
      (fun acc it =>
        let r := token_manager_step acc.1 it.1 it.2
        (r.1, acc.2 + r.2))
      (t0, 0)

/-- The `default_css` string literal built by `create_default_css`
(src/main.py:30-56). -/
def default_css_text : String :=
  ":root \x7b\n    --bg-color: rgba(0, 255, 0, 1);\n    --bg-image: none;\n    --bg-size: cover;\n    --bg-repeat: no-repeat;\n\n    --text: rgba(238, 238, 238, 1);\n\n    --progress-bg: rgba(255, 0, 0, 0.3);\n    --progress-start: rgba(94, 255, 155, 1);\n    --progress-end: rgba(0, 176, 255, 1);\n\n    --card-bg: rgba(30, 30, 30, 0.8);\n    --card-shadow: 0 8px 32px rgba(0, 0, 0, 0.5);\n\n    --fade-wait: 10s;\n    --fade-duration: 2s;\n    --fade-ease: ease-out;\n\n    --card-display: flex;\n\n    /* PNG Export Settings */\n    --png-export-enabled: 1;\n    --png-width: 600;\n\x7d\n"

/-- Embedding of `create_default_css` (src/main.py:30-56) as a transformer
of the CSS file state (`none` = file absent, `some s` = file with content
`s`).  The function body only binds the local string `default_css` and
ends; it performs no write, so the file state is returned unchanged.  The
second component is the local string the body constructed and dropped. -/
def create_default_css (fs : Option String) : Option String × String :=
  (fs, default_css_text)

/-- Embedding of `load_css` (src/main.py:58-62): when the CSS file does
not exist it calls `create_default_css` (discarding its result), then
opens the file for reading — which raises `FileNotFoundError` when the
file still does not exist.  Returns the file state after the call and the
read content or the raised exception. -/
def load_css (fs : Option String) : Option String × Except String String :=
  let fs1 := if fs.isNone then (create_default_css fs).1 else fs
  match fs1 with
  | none => (none, Except.error "FileNotFoundError")
  | some s => (some s, Except.ok s)

/-- `maxsize` of `auth_code_q = queue.Queue()` (src/main.py:26): the
default 0, meaning unbounded. -/
def auth_code_q_maxsize : Nat := 0

/-- `Queue.put_nowait` semantics: enqueue at the tail when the queue is
unbounded (`maxsize = 0`) or not full; otherwise raise `queue.Full`,
modelled as `none`. -/
def put_nowait (maxsize : Nat) (q : List String) (x : String) :
    Option (List String) :=
  if maxsize = 0 ∨ q.length < maxsize then some (q ++ [x]) else none

/-- Embedding of the `/callback` route (src/main.py:548-563) acting on the
handoff queue: an `error` query parameter or a missing `code` returns 400
and leaves the queue alone; otherwise `put_nowait` runs inside
`try/except: pass`, so a `queue.Full` exception would silently drop the
code.  Returns the queue after the request and the HTTP status. -/
def callback (q : List String) (error : Option String) (code : Option String) :
    List String × Nat :=
  match error with
  | some _ => (q, 400)
  | none =>
    match code with
    | none => (q, 400)
    | some c =>
      match put_nowait auth_code_q_maxsize q c with
      | some q2 => (q2, 200)
      | none => (q, 200)

/-- `Queue.get` FIFO semantics used by `complete_auth` (src/main.py:786):
the oldest enqueued element is returned first; an empty queue yields
`none` (a `queue.Empty` exception once the timeout elapses). -/
def queue_get : List String → Option (String × List String)
  | [] => none
  | x :: rest => some (x, rest)

/-- The timeout, in seconds, that `complete_auth` passes to
`auth_code_q.get` (src/main.py:786). -/
def complete_auth_timeout : Rat := 120

/-- A string append whose left part is nonempty is nonempty. -/
lemma append_ne_empty_of_left (a b : String) (h : a ≠ "") : a ++ b ≠ "" := by
  intro hab
  apply h
  have hl := congrArg String.length hab
  rw [String.length_append] at hl
  have ha : a.length = 0 := by
    have h0 : String.length "" = 0 := rfl
    omega
  cases a with
  | mk data =>
    have hd : data.length = 0 := ha
    have hdata : data = [] := List.eq_nil_of_length_eq_zero hd
    simp [hdata]

/-- Claim C6: if no refresh token is present (absent or empty) when
`token_manager_loop` starts, it returns immediately, performs zero HTTP
calls, and never mutates the tokens record, whatever iterations would
have followed. -/
theorem c6_no_refresh_token_exits (t0 : Tokens)
    (iters : List (Rat × RefreshOutcome))
    (h : strTruthy t0.refresh_token = false) :
    token_manager_loop t0 iters = (t0, 0) := by
  unfold token_manager_loop
  simp [h]

/-- Witness for C6 at a concrete record with an access token, no refresh
token, and a nonempty iteration trace. -/
theorem c6_no_refresh_token_exits_witness :
    strTruthy (Tokens.mk (some "tok") none (some 10)).refresh_token = false ∧
    token_manager_loop (Tokens.mk (some "tok") none (some 10))
        [(0, RefreshOutcome.failure),
         (10, RefreshOutcome.success ⟨"a", some "r", some 3600⟩)]
      = (Tokens.mk (some "tok") none (some 10), 0) :=
  ⟨rfl, c6_no_refresh_token_exits _ _ rfl⟩

/-- Counterexample for C7: the handoff queue is not single-slot and does
not drop a second code — after two `/callback` requests both codes are
pending, in arrival order. -/
theorem c7_counterexample :
    (callback [] none (some "c1")).1 = ["c1"] ∧
    (callback ["c1"] none (some "c2")).1 = ["c1", "c2"] ∧
    (["c1", "c2"] : List String) ≠ ["c1"] :=
  ⟨rfl, rfl, by decide⟩

/-- Claim C7 as amended: the OAuth redirect handoff channel is an
unbounded FIFO queue (`maxsize = 0`), so `/callback` always appends the
received code and a second code arriving before the first is consumed is
enqueued behind it rather than dropped; the consumer takes the oldest
pending code first and waits up to 120 seconds for a code before treating
the attempt as failed. -/
theorem c7_queue_amended (q : List String) (c : String) :
    auth_code_q_maxsize = 0 ∧
    (callback q none (some c)).1 = q ++ [c] ∧
    (callback q none (some c)).2 = 200 ∧
    (∀ x xs, queue_get (x :: xs) = some (x, xs)) ∧
    complete_auth_timeout = 120 := by
  refine ⟨rfl, ?_, ?_, fun x xs => rfl, rfl⟩ <;>
    simp [callback, put_nowait, auth_code_q_maxsize]

/-- Claim C9: `create_default_css` constructs the default stylesheet text
but performs no write to the CSS file state, so when the file does not
exist `load_css` raises `FileNotFoundError` instead of creating the
defaults and returning them. -/
theorem c9_load_css_no_defaults :
    (∀ fs, (create_default_css fs).1 = fs ∧
      (create_default_css fs).2 = default_css_text) ∧
    load_css none = (none, Except.error "FileNotFoundError") :=
  ⟨fun _ => ⟨rfl, rfl⟩, rfl⟩

/-- Claim C10: `format_track_display` returns the empty string exactly
when the snapshot is `None` or its item field is absent or null, and the
index route styles the card with display none exactly when the derived
output is empty after stripping whitespace. -/
theorem c10_empty_display (data : Option Snapshot) :
    (format_track_display data = Except.ok "" ↔ data_has_item data = false) ∧
    (∀ s, index_card_style s = "display: none;" ↔ s.trim = "") := by
  constructor
  · match data with
    | none => simp [format_track_display, data_has_item]
    | some d =>
      match hi : d.item with
      | none => simp [format_track_display, data_has_item, hi]
      | some item =>
        simp only [format_track_display, data_has_item, hi, Option.isSome_some]
        match hp : track_pct d item with
        | Except.error e => simp
        | Except.ok pct =>
          simp only [Except.ok.injEq]
          constructor
          · intro h
            exfalso
            revert h
            apply append_ne_empty_of_left
            repeat (first | exact (by decide) | apply append_ne_empty_of_left)
          · intro h
            simp at h
  · intro s
    unfold index_card_style
    split
    · simp [*]
    · simp only [*]
      constructor
      · intro h
        exact absurd h (by decide)
      · intro h
        simp_all

/-- Counterexample for C1: a snapshot whose track item carries
`duration_ms = 0` (key present, value zero) reaches the division and the
derivation raises `ZeroDivisionError` — the default divisor 1 does not
apply and the derivation is not raise-free. -/
theorem c1_counterexample :
    format_track_display (some (Snapshot.mk
        (some (TrackItem.mk (some "t") ["a"]
          (some (AlbumObj.mk (some "al") ["u"])) (some 0)))
        (some 30000) (some true)))
      = Except.error "ZeroDivisionError" := rfl

/-- Claim C1 as amended: for every snapshot with a track item, the
playback percentage is `min 100 (progress / duration * 100)` where the
divisor defaults to 1 only when `duration_ms` is absent; when
`duration_ms` is present with value 0 the derivation raises
`ZeroDivisionError`; for any present nonzero duration the stated formula
holds (in particular progress 30000 with duration 200000 yields 15). -/
theorem c1_pct_amended (d : Snapshot) (item : TrackItem)
    (_hitem : d.item = some item) :
    (item.duration_ms = none →
      track_pct d item = Except.ok (min 100 ((d.progress_ms.getD 0) / 1 * 100))) ∧
    (item.duration_ms = some 0 →
      track_pct d item = Except.error "ZeroDivisionError") ∧
    (∀ q, item.duration_ms = some q → q ≠ 0 →
      track_pct d item = Except.ok (min 100 ((d.progress_ms.getD 0) / q * 100))) := by
  refine ⟨?_, ?_, ?_⟩
  · intro hd
    simp [track_pct, hd]
  · intro hd
    simp [track_pct, hd]
  · intro q hd hq
    simp [track_pct, hd, hq]

/-- Witness for C1: progress 30000 ms with duration 200000 ms yields a
percentage of exactly 15. -/
theorem c1_pct_amended_witness :
    (Snapshot.mk (some (TrackItem.mk (some "t") ["a"] none (some 200000)))
        (some 30000) (some true)).item
      = some (TrackItem.mk (some "t") ["a"] none (some 200000)) ∧
    track_pct
        (Snapshot.mk (some (TrackItem.mk (some "t") ["a"] none (some 200000)))
          (some 30000) (some true))
        (TrackItem.mk (some "t") ["a"] none (some 200000))
      = Except.ok 15 := by
  refine ⟨rfl, ?_⟩
  have h := (c1_pct_amended
    (Snapshot.mk (some (TrackItem.mk (some "t") ["a"] none (some 200000)))
      (some 30000) (some true))
    (TrackItem.mk (some "t") ["a"] none (some 200000)) rfl).2.2 200000 rfl
    (by norm_num)
  rw [h]
  norm_num

/-- Counterexample for C2: a successful poll whose snapshot has a track
item but reports `is_playing = false` still sets the last-playing
timestamp to the current time (99), contradicting the claimed
equivalence with `is_playing`. -/
theorem c2_counterexample :
    (Snapshot.mk (some (TrackItem.mk (some "t") ["a"] none (some 1000)))
        (some 0) (some false)).is_playing = some false ∧
    (poll_iteration
        (PollShared.mk
          (some (Snapshot.mk (some (TrackItem.mk (some "t") ["a"] none (some 1000)))
            (some 0) (some true)))
          (some 5))
        (Except.ok (some (Snapshot.mk
          (some (TrackItem.mk (some "t") ["a"] none (some 1000)))
          (some 0) (some false))))
        99).last_track_time = some 99 ∧
    (99 : Rat) ≠ 5 :=
  ⟨rfl, rfl, by norm_num⟩

/-- Claim C2 as amended: on a successful poll the shared snapshot is
replaced, and the last-playing timestamp is set to the current time
exactly when the returned snapshot is non-None and has a track item —
independently of the reported `is_playing` value; when no item is present
the timestamp is left unchanged. -/
theorem c2_last_playing_amended (st : PollShared) (data : Option Snapshot)
    (now : Rat) :
    (data_has_item data = true →
      (poll_iteration st (Except.ok data) now).last_track_time = some now) ∧
    (data_has_item data = false →
      (poll_iteration st (Except.ok data) now).last_track_time
        = st.last_track_time) ∧
    (poll_iteration st (Except.ok data) now).current_track_data = data := by
  refine ⟨?_, ?_, rfl⟩ <;> intro h <;> simp [poll_iteration, h]

/-- Witness for C2 as amended: a snapshot with a track item and
`is_playing = false` updates the last-playing timestamp to the poll
time. -/
theorem c2_last_playing_amended_witness :
    data_has_item (some (Snapshot.mk (some (TrackItem.mk (some "t") [] none none))
        none (some false))) = true ∧
    (poll_iteration (PollShared.mk none (some 5))
        (Except.ok (some (Snapshot.mk (some (TrackItem.mk (some "t") [] none none))
          none (some false))))
        99).last_track_time = some 99 :=
  ⟨rfl, (c2_last_playing_amended (PollShared.mk none (some 5))
    (some (Snapshot.mk (some (TrackItem.mk (some "t") [] none none)) none (some false)))
    99).1 rfl⟩

/-- Counterexample for C3: on HTTP 429 the client returns `None`, and the
poller then overwrites a previously stored snapshot with `None` — the
shared snapshot is not left untouched. -/
theorem c3_counterexample :
    (get_current_playback PlaybackHttp.s429).outcome = Except.ok none ∧
    poll_iteration
        (PollShared.mk
          (some (Snapshot.mk (some (TrackItem.mk (some "t") ["a"] none (some 1000)))
            (some 0) (some true)))
          (some 5))
        (get_current_playback PlaybackHttp.s429).outcome 7
      = PollShared.mk none (some 5) ∧
    (some (Snapshot.mk (some (TrackItem.mk (some "t") ["a"] none (some 1000)))
        (some 0) (some true)) : Option Snapshot) ≠ none :=
  ⟨rfl, rfl, by simp⟩

/-- Claim C3 as amended: on HTTP 429 `get_current_playback` absorbs a
fixed 2-second pause and returns `None` without raising — exactly the
value a 204 produces — so the poller replaces the shared snapshot with
`None` (clearing the previous snapshot rather than retaining it) while
leaving the last-playing timestamp unchanged, and proceeds to the next
iteration. -/
theorem c3_rate_limit_amended (st : PollShared) (now : Rat) :
    (get_current_playback PlaybackHttp.s429).slept = 2 ∧
    (get_current_playback PlaybackHttp.s429).outcome = Except.ok none ∧
    poll_iteration st (get_current_playback PlaybackHttp.s429).outcome now
      = PollShared.mk none st.last_track_time ∧
    (get_current_playback PlaybackHttp.s429).outcome
      = (get_current_playback PlaybackHttp.s204).outcome := by
  refine ⟨rfl, rfl, ?_, rfl⟩
  simp [poll_iteration, get_current_playback, data_has_item]

/-- Counterexample for C4: a snapshot with no track item but a stored
`is_playing = true` produces a `/track-data` payload with
`has_track = false` and `is_playing = true`. -/
theorem c4_counterexample :
    track_data (some (Snapshot.mk none none (some true)))
      = Except.ok (TrackDataPayload.mk "" false true) := rfl

/-- Claim C4 as amended: the `/track-data` payload reports `has_track`
as the presence of the item, but reports `is_playing` as the raw stored
`is_playing` value (defaulting to false only when the key is absent),
without gating it on `has_track`. -/
theorem c4_is_playing_amended (d : Snapshot) (p : TrackDataPayload)
    (h : track_data (some d) = Except.ok p) :
    p.has_track = d.item.isSome ∧ p.is_playing = d.is_playing.getD false := by
  cases hf : format_track_display (some d) with
  | error e =>
    simp [track_data, hf] at h
  | ok html =>
    simp [track_data, hf] at h
    subst h
    exact ⟨rfl, rfl⟩

/-- Witness for C4 as amended at a snapshot with no item and stored
`is_playing = true`. -/
theorem c4_is_playing_amended_witness :
    (TrackDataPayload.mk "" false true).has_track
        = (Snapshot.mk none none (some true)).item.isSome ∧
    (TrackDataPayload.mk "" false true).is_playing
        = (Snapshot.mk none none (some true)).is_playing.getD false :=
  c4_is_playing_amended (Snapshot.mk none none (some true))
    (TrackDataPayload.mk "" false true) rfl

/-- Counterexample for C5: with an empty access token but a far-future
`expires_at` of 10000, a refresh is attempted and a successful response
with lifetime 3600 at time 0 rewrites `expires_at` to 3600 — strictly
backward, not forward. -/
theorem c5_counterexample :
    needs_refresh (Tokens.mk (some "") (some "r") (some 10000)) 0 = true ∧
    (token_manager_step (Tokens.mk (some "") (some "r") (some 10000)) 0
        (RefreshOutcome.success (RefreshResp.mk "a" none (some 3600)))).1.expires_at
      = some 3600 ∧
    (3600 : Rat) < 10000 := by
  refine ⟨rfl, ?_, by norm_num⟩
  simp [token_manager_step, needs_refresh]

/-- Claim C5 as amended: on every failed refresh the tokens record is
left unmodified; on every successful refresh `expires_at` is set to
`now + lifetime` (default 3600 s), which strictly exceeds the previous
`expires_at` whenever the refresh was triggered by the expiry condition
(access token truthy and `now ≥ expires_at - 30 s`) and the lifetime
exceeds 30 s — but not in general, e.g. when the refresh was triggered
by a missing or empty access token. -/
theorem c5_refresh_amended (t : Tokens) (now : Rat) (resp : RefreshResp) :
    (token_manager_step t now RefreshOutcome.failure).1 = t ∧
    (needs_refresh t now = true →
      (token_manager_step t now (RefreshOutcome.success resp)).1.expires_at
        = some (now + resp.expires_in.getD 3600)) ∧
    (∀ exp, t.expires_at = some exp → strTruthy t.access_token = true →
      needs_refresh t now = true → 30 < resp.expires_in.getD 3600 →
      exp < now + resp.expires_in.getD 3600) := by
  refine ⟨?_, ?_, ?_⟩
  · unfold token_manager_step
    split
    · rfl
    · rfl
  · intro h
    simp [token_manager_step, h]
  · intro exp hexp hacc hneed hlife
    cases hat : t.access_token with
    | none =>
      rw [hat] at hacc
      simp [strTruthy] at hacc
    | some a =>
      rw [hat] at hacc
      simp [strTruthy] at hacc
      unfold needs_refresh at hneed
      rw [hat, hexp] at hneed
      have hbeq : (a == "") = false := by
        simp [hacc]
      simp [hbeq] at hneed
      linarith

/-- Witness for C5 as amended: an expiry-triggered refresh (expires_at
100, now 80) with lifetime 3600 leaves a failure unchanged and moves
`expires_at` strictly forward to 3680 on success. -/
theorem c5_refresh_amended_witness :
    (token_manager_step (Tokens.mk (some "old") (some "r") (some 100)) 80
        RefreshOutcome.failure).1
      = Tokens.mk (some "old") (some "r") (some 100) ∧
    (token_manager_step (Tokens.mk (some "old") (some "r") (some 100)) 80
        (RefreshOutcome.success (RefreshResp.mk "new" none (some 3600)))).1.expires_at
      = some (80 + (3600 : Rat)) ∧
    (100 : Rat) < 80 + 3600 := by
  have h := c5_refresh_amended (Tokens.mk (some "old") (some "r") (some 100)) 80
    (RefreshResp.mk "new" none (some 3600))
  have hn : needs_refresh (Tokens.mk (some "old") (some "r") (some 100)) 80 = true := by
    simp [needs_refresh]
    norm_num
  exact ⟨h.1, h.2.1 hn, h.2.2 100 rfl rfl hn (by norm_num)⟩

/-- Counterexample for C8: a non-None snapshot whose track item has
`duration_ms = 0` makes `/track-data` raise `ZeroDivisionError` via the
embedded `format_track_display`, refuting the claimed equivalence of
raising with a `None` snapshot. -/
theorem c8_counterexample :
    track_data (some (Snapshot.mk
        (some (TrackItem.mk (some "t") ["a"] none (some 0)))
        (some 1) (some true)))
      = Except.error "ZeroDivisionError" := rfl

/-- Claim C8 as amended: `/track-data` raises exactly when the shared
snapshot is `None` (AttributeError from `None.get`) or when the snapshot
has a track item with a present zero `duration_ms` (ZeroDivisionError
propagated from `format_track_display`); every other snapshot yields a
payload without raising. -/
theorem c8_raise_amended (data : Option Snapshot) :
    (∃ e, track_data data = Except.error e) ↔
      (data = none ∨ ∃ d item, data = some d ∧ d.item = some item ∧
        item.duration_ms = some 0) := by
  match data with
  | none => simp [track_data, format_track_display]
  | some d =>
    match hi : d.item with
    | none => simp [track_data, format_track_display, hi]
    | some item =>
      match hd : item.duration_ms with
      | none =>
        simp [track_data, format_track_display, track_pct, hi, hd]
      | some q =>
        by_cases hq : q = 0
        · subst hq
          simp [track_data, format_track_display, track_pct, hi, hd]
        · simp [track_data, format_track_display, track_pct, hi, hd, hq]

end NeonSpot
